import Mathlib

/-!
Verification development for the puppeteer-at-home server (src/server.ts).

The server exposes a single shared headless browser. An HTTP endpoint
rewrites the local DevTools WebSocket endpoint into a public URL, a
WebSocket multiplexer routes public connections whose path has the form
/port/rest to local loopback endpoints and relays frames in both
directions, a supervisor tracks per-tab activity in a registry keyed by
CDP session id, and a periodic reaper closes inactive tabs.

Shallow embedding: JS numbers that hold timestamps and counters are
modelled as Nat, JS strings as String, absent values as Option, and the
event-driven parts (proxy session, supervisor callbacks, interleaved
launches) as explicit state machines stepped over event lists.
-/

namespace PuppeteerServer

/-- The tabLastActivity map (JS Map from string key to numeric timestamp),
modelled as an association list with unique keys. -/
abbrev Registry := List (String × Nat)

/-- Lookup in the registry (Map.get). -/
def regLookup : Registry → String → Option Nat
  | [], _ => none
  | (k, v) :: rest, key => if k = key then some v else regLookup rest key

/-- Deletion from the registry (Map.delete). -/
def regErase : Registry → String → Registry
  | [], _ => []
  | (k, v) :: rest, key =>
      if k = key then regErase rest key else (k, v) :: regErase rest key

/-- Insertion or replacement in the registry (Map.set). -/
def regSet : Registry → String → Nat → Registry
  | [], key, val => [(key, val)]
  | (k, v) :: rest, key, val =>
      if k = key then (key, val) :: rest else (k, v) :: regSet rest key val

/-- Constant INACTIVE_TAB_TIMEOUT_MS, five minutes in milliseconds. -/
def INACTIVE_TAB_TIMEOUT_MS : Nat := 5 * 60 * 1000

/-- One character class of the JS regex dot (without the s flag): every
character except line terminators. -/
def regexDotMatch (c : Char) : Bool :=
  !(c = '\n' || c = '\r' || c.toNat = 0x2028 || c.toNat = 0x2029)

/-- The match path.match of the anchored regex used by the connection
handler: a slash, one or more ASCII digits (greedy), then a slash and a
greedy dot-star remainder. Returns the two capture groups. -/
def pathMatchList (cs : List Char) : Option (List Char × List Char) :=
  match cs with
  | [] => none
  | c :: rest =>
      if c = '/' then
        let ds := rest.takeWhile Char.isDigit
        if ds = [] then none
        else
          match rest.dropWhile Char.isDigit with
          | [] => none
          | c2 :: more =>
              if c2 = '/' then some (ds, '/' :: more.takeWhile regexDotMatch)
              else none
      else none

/-- Outcome of the synchronous part of the connection handler: the close
code sent to the inbound client, if any, and the internal WebSocket URL
it constructs, if any. -/
structure ConnInit where
  closeCode : Option Nat
  internalTarget : Option String
deriving DecidableEq

/-- The wsServer connection handler up to the construction of the internal
WebSocket: an unmatched path closes the client with code 1002 and builds
no internal target; a matched path builds the loopback target from the
two capture groups. -/
def wsConnectionInit (path : String) : ConnInit :=
  match pathMatchList path.data with
  | none => ⟨some 1002, none⟩
  | some (port, rest) =>
      ⟨none, some ("ws://127.0.0.1:" ++ String.mk port ++ String.mk rest)⟩

/-- Decimal value of a digit list, most significant first. -/
def digitsVal (ds : List Char) : Nat :=
  ds.foldl (fun n c => n * 10 + (c.toNat - 48)) 0

/-- Modelled fragment of WHATWG URL parsing (the new URL call inside
remapWebSocketEndpoint) for endpoint strings of the exact shape
ws://127.0.0.1: followed by a nonempty digit run and then a path. The
port is the decimal value of the digits and parsing fails above 65535
(the constructor throws); the pathname is the remainder truncated at the
first query or fragment delimiter, defaulting to a single slash.
Endpoint strings outside this fragment (empty port, userinfo, paths that
URL parsing would rewrite, such as dot segments, backslashes or
characters that get percent-encoded) are mapped to none. -/
def parseLoopbackWsUrl (s : String) : Option (Nat × String) :=
  let pre := "ws://127.0.0.1:".data
  let cs := s.data
  if cs.take pre.length = pre then
    let rest := cs.drop pre.length
    let ds := rest.takeWhile Char.isDigit
    if ds = [] then none
    else if 65535 < digitsVal ds then none
    else
      match rest.dropWhile Char.isDigit with
      | [] => some (digitsVal ds, "/")
      | c :: more =>
          if c = '/' then
            some (digitsVal ds,
              String.mk ('/' :: more.takeWhile (fun ch => !(ch = '?' || ch = '#'))))
          else none
  else none

/-- Function remapWebSocketEndpoint: rebuilds the endpoint as
wss:// domain / port pathname, where port is the WHATWG serialization of
the parsed URL port (empty when it equals 80, the default port of the ws
scheme) and pathname is the parsed URL pathname. A throwing URL
constructor is modelled as none. -/
def remapWebSocketEndpoint (publicDomain wsEndpoint : String) : Option String :=
  match parseLoopbackWsUrl wsEndpoint with
  | none => none
  | some (v, pathname) =>
      some ("wss://" ++ publicDomain ++ "/" ++
        (if v = 80 then "" else toString v) ++ pathname)

/-- Characters that the modelled URL fragment passes through verbatim in a
pathname: printable ASCII excluding space, the quote, angle brackets,
backtick, braces, the query and fragment delimiters, the percent sign,
the backslash and the dot (dots are excluded so no dot-segment
normalization can fire). -/
def pathVerbatimChar (c : Char) : Bool :=
  0x21 ≤ c.toNat && c.toNat ≤ 0x7e &&
    !(c.toNat = 0x22 || c.toNat = 0x23 || c.toNat = 0x25 || c.toNat = 0x2e ||
      c.toNat = 0x3c || c.toNat = 0x3e || c.toNat = 0x3f || c.toNat = 0x5c ||
      c.toNat = 0x60 || c.toNat = 0x7b || c.toNat = 0x7d)

/-- ReadyState of one ws socket. -/
inductive WsReadyState
  | connecting
  | opened
  | closing
  | closed
deriving DecidableEq

/-- One ProxySession: the two socket states, the queue of client frames
registered as once-open listeners on the internal socket, the frames
actually written to each socket, and how many times close was invoked on
each socket. A frame is its data plus the isBinary flag. -/
structure ProxySession where
  clientState : WsReadyState
  chromeState : WsReadyState
  pendingToChrome : List (Nat × Bool)
  sentToChrome : List (Nat × Bool)
  sentToClient : List (Nat × Bool)
  clientCloseCalls : Nat
  chromeCloseCalls : Nat
deriving DecidableEq

/-- Events delivered to one ProxySession by the runtime. -/
inductive ProxyEv
  | clientMessage (data : Nat) (isBinary : Bool)
  | chromeMessage (data : Nat) (isBinary : Bool)
  | chromeOpen
  | clientClose
  | chromeClose
  | clientError
  | chromeError
deriving DecidableEq

/-- Effect of socket.close(): only a socket in the OPEN state transitions
to CLOSING and counts a close call; in ws, close on a CONNECTING, CLOSING
or CLOSED socket is what the handler code never reaches because of its
readyState guard, so the state is returned unchanged. -/
def closeSocket (st : WsReadyState) (calls : Nat) : WsReadyState × Nat :=
  if st = WsReadyState.opened then (WsReadyState.closing, calls + 1) else (st, calls)

/-- The cleanup closure of the connection handler: closes each of the two
sockets only when its readyState is OPEN. -/
def cleanup (s : ProxySession) : ProxySession :=
  let c := closeSocket s.clientState s.clientCloseCalls
  let k := closeSocket s.chromeState s.chromeCloseCalls
  { s with clientState := c.1, clientCloseCalls := c.2,
           chromeState := k.1, chromeCloseCalls := k.2 }

/-- One event step of a ProxySession, following the handlers of the
connection callback: a client frame is forwarded when the internal socket
is OPEN and otherwise registered as a once-open listener; a chrome frame
is forwarded when the client socket is OPEN and otherwise dropped; the
open event flushes the once-open listeners in registration order; close
events fire after the socket reached CLOSED; close and error events on
either leg run cleanup. -/
def proxyStep (s : ProxySession) : ProxyEv → ProxySession
  | ProxyEv.clientMessage d b =>
      if s.chromeState = WsReadyState.opened then
        { s with sentToChrome := s.sentToChrome ++ [(d, b)] }
      else
        { s with pendingToChrome := s.pendingToChrome ++ [(d, b)] }
  | ProxyEv.chromeMessage d b =>
      if s.clientState = WsReadyState.opened then
        { s with sentToClient := s.sentToClient ++ [(d, b)] }
      else s
  | ProxyEv.chromeOpen =>
      if s.chromeState = WsReadyState.connecting then
        { s with chromeState := WsReadyState.opened,
                 sentToChrome := s.sentToChrome ++ s.pendingToChrome,
                 pendingToChrome := [] }
      else s
  | ProxyEv.clientClose => cleanup { s with clientState := WsReadyState.closed }
  | ProxyEv.chromeClose => cleanup { s with chromeState := WsReadyState.closed }
  | ProxyEv.clientError => cleanup s
  | ProxyEv.chromeError => cleanup s

/-- State of a session right after the connection handler ran: the inbound
client socket is open, the internal socket is connecting, nothing queued
or sent yet. -/
def initProxySession : ProxySession :=
  ⟨WsReadyState.opened, WsReadyState.connecting, [], [], [], 0, 0⟩

/-- Run a ProxySession over a list of events. -/
def runProxy (s : ProxySession) (evs : List ProxyEv) : ProxySession :=
  evs.foldl proxyStep s

/-- Invariant of a ProxySession: close was invoked at most once per
socket, and a socket whose close was invoked has left the OPEN and
CONNECTING states for good. -/
def ProxyInv (s : ProxySession) : Prop :=
  s.clientCloseCalls ≤ 1 ∧ s.chromeCloseCalls ≤ 1 ∧
  (s.clientCloseCalls = 1 →
    s.clientState = WsReadyState.closing ∨ s.clientState = WsReadyState.closed) ∧
  (s.chromeCloseCalls = 1 →
    s.chromeState = WsReadyState.closing ∨ s.chromeState = WsReadyState.closed)

/-- Target type reported by a puppeteer target. -/
inductive TargetType
  | page
  | other
deriving DecidableEq

/-- Supervisor state: the singleton browser handle, the tabLastActivity
registry, and a counter from which target.createCDPSession() draws fresh
CDP session ids (every attach yields a new session with a new id). -/
structure SupervisorState where
  browser : Option Nat
  tabLastActivity : Registry
  nextSessionId : Nat
deriving DecidableEq

/-- Effect of target.createCDPSession() followed by session.id(): a fresh
session id, distinct from the id of every session created before. -/
def newCDPSessionId (s : SupervisorState) : String × SupervisorState :=
  ("session-" ++ toString s.nextSessionId, { s with nextSessionId := s.nextSessionId + 1 })

/-- The targetcreated handler: it creates a CDP session for every target,
and for a page target stores the current time under that session id. -/
def onTargetCreated (t : TargetType) (now : Nat) (s : SupervisorState) : SupervisorState :=
  let fresh := newCDPSessionId s
  match t with
  | TargetType.page =>
      { fresh.2 with tabLastActivity := regSet fresh.2.tabLastActivity fresh.1 now }
  | TargetType.other => fresh.2

/-- The targetdestroyed handler: it creates another CDP session (yielding
a fresh id) and for a page target deletes that fresh id from the
registry. -/
def onTargetDestroyed (t : TargetType) (s : SupervisorState) : SupervisorState :=
  let fresh := newCDPSessionId s
  match t with
  | TargetType.page =>
      { fresh.2 with tabLastActivity := regErase fresh.2.tabLastActivity fresh.1 }
  | TargetType.other => fresh.2

/-- The disconnected handler: null out the browser handle and clear the
registry. -/
def onDisconnected (s : SupervisorState) : SupervisorState :=
  { s with browser := none, tabLastActivity := [] }

/-- One live page as the reaper sweep sees it: only its current URL. The
registry key the sweep uses for a page is not an attribute of the page:
the code resolves it during the sweep by attaching a fresh CDP session to
the page's target and taking that session's id. -/
structure Page where
  url : String
deriving DecidableEq

/-- One loop iteration of cleanupInactiveTabs over the supervisor state.
The iteration first attaches a fresh CDP session to the page's target and
takes the session id as the lookup key (const targetId = session.id()),
then skips a page that is the blank default and the only page of the
snapshot, and otherwise closes the page and deletes the key exactly when
the key has a recorded timestamp that is truthy as a JS number (nonzero)
and strictly older than the threshold. The accumulator carries the keys
under which pages were closed and the evolving supervisor state (registry
plus CDP-session counter). The JS comparison now - lastActivity > TIMEOUT
agrees with truncated Nat subtraction: a timestamp in the future yields a
non-positive difference in JS and zero here, both failing the strict
comparison. -/
def sweepStep (now pagesLen : Nat) (acc : List String × SupervisorState) (p : Page) :
    List String × SupervisorState :=
  let fresh := newCDPSessionId acc.2
  if p.url = "about:blank" ∧ pagesLen ≤ 1 then (acc.1, fresh.2)
  else
    match regLookup fresh.2.tabLastActivity fresh.1 with
    | none => (acc.1, fresh.2)
    | some t =>
        if t ≠ 0 ∧ INACTIVE_TAB_TIMEOUT_MS < now - t then
          (acc.1 ++ [fresh.1],
            { fresh.2 with tabLastActivity := regErase fresh.2.tabLastActivity fresh.1 })
        else (acc.1, fresh.2)

/-- The reaper sweep cleanupInactiveTabs: returns early when no browser
is running, otherwise folds over the snapshot of live pages, returning
the keys under which it closed pages and the updated supervisor state. -/
def cleanupInactiveTabs (now : Nat) (pages : List Page) (s : SupervisorState) :
    List String × SupervisorState :=
  match s.browser with
  | none => ([], s)
  | some _ => pages.foldl (sweepStep now pages.length) ([], s)

/-- Program counter of one launchBrowser invocation: at entry (before the
synchronous null check), suspended inside await puppeteer.launch, or
returned. The reuse probe await browser.pages() is modelled as succeeding
immediately; the claims under study concern calls that start with no
browser running. -/
inductive AcquirePC
  | entry
  | launching
  | done
deriving DecidableEq

/-- Shared state of the event loop for overlapping launchBrowser calls:
the module-level browser variable, a count of puppeteer.launch calls
performed, and the program counter of every pending invocation. -/
structure LaunchSys where
  browser : Option Nat
  launches : Nat
  tasks : List AcquirePC
deriving DecidableEq

/-- Resume invocation i for one segment between suspension points. At
entry the synchronous null check either sees a browser and returns, or
calls puppeteer.launch (counted here, where the process spawn starts) and
suspends; a suspended launch resumes by assigning the module-level
browser variable and returning. -/
def launchStep (sys : LaunchSys) (i : Nat) : LaunchSys :=
  match sys.tasks[i]? with
  | none => sys
  | some AcquirePC.entry =>
      match sys.browser with
      | some _ => { sys with tasks := sys.tasks.set i AcquirePC.done }
      | none =>
          { sys with launches := sys.launches + 1,
                     tasks := sys.tasks.set i AcquirePC.launching }
  | some AcquirePC.launching =>
      { sys with browser := some sys.launches,
                 tasks := sys.tasks.set i AcquirePC.done }
  | some AcquirePC.done => sys

/-- Run the event loop over a schedule of invocation resumptions. -/
def runSched (sys : LaunchSys) (sched : List Nat) : LaunchSys :=
  sched.foldl launchStep sys

/-- JS template-literal stringification of the AUTH_TOKEN environment
value: an undefined token interpolates as the literal string undefined. -/
def jsTemplateToken : Option String → String
  | some t => t
  | none => "undefined"

/-- The authorization check of the HTTP handler: the request is authorized
when the authorization header is present, truthy (nonempty) and equal to
the template literal Bearer followed by the token. -/
def authOk (token header : Option String) : Bool :=
  match header with
  | none => false
  | some h =>
      if h = "" then false
      else if h = "Bearer " ++ jsTemplateToken token then true
      else false

/-- HTTP status produced by the authorization gate: 401 when unauthorized,
none when the request proceeds to routing. -/
def authResponse (token header : Option String) : Option Nat :=
  if authOk token header then none else some 401

/-! Helper lemmas about takeWhile and dropWhile across an append. -/

theorem takeWhile_app {α : Type} (p : α → Bool) :
    ∀ (l : List α) (c : α) (r : List α), (∀ x ∈ l, p x = true) → p c = false →
      (l ++ c :: r).takeWhile p = l ∧ (l ++ c :: r).dropWhile p = c :: r := by
  intro l
  induction l with
  | nil =>
      intro c r _ hc
      simp [List.takeWhile, List.dropWhile, hc]
  | cons a t ih =>
      intro c r hall hc
      have ha : p a = true := hall a (List.mem_cons_self a t)
      have ht : ∀ x ∈ t, p x = true := fun x hx => hall x (List.mem_cons_of_mem a hx)
      have hrec := ih c r ht hc
      simp [List.takeWhile, List.dropWhile, ha, hrec.1, hrec.2]

theorem takeWhile_of_all {α : Type} (p : α → Bool) :
    ∀ (l : List α), (∀ x ∈ l, p x = true) → l.takeWhile p = l := by
  intro l
  induction l with
  | nil => simp
  | cons a t ih =>
      intro hall
      have ha : p a = true := hall a (List.mem_cons_self a t)
      have ht := ih fun x hx => hall x (List.mem_cons_of_mem a hx)
      simp [List.takeWhile, ha, ht]

/-! Characterization of the path regex match. -/

theorem pathMatchList_of_form (ds rest : List Char) (hne : ds ≠ [])
    (hdig : ∀ c ∈ ds, c.isDigit = true) :
    pathMatchList ('/' :: (ds ++ '/' :: rest)) =
      some (ds, '/' :: rest.takeWhile regexDotMatch) := by
  have h := takeWhile_app Char.isDigit ds '/' rest hdig (by decide)
  simp [pathMatchList, h.1, h.2, hne]

theorem pathMatchList_some (cs : List Char) (pr : List Char × List Char)
    (h : pathMatchList cs = some pr) :
    ∃ ds rest, ds ≠ [] ∧ (∀ c ∈ ds, c.isDigit = true) ∧
      cs = '/' :: (ds ++ '/' :: rest) := by
  match cs with
  | [] => simp [pathMatchList] at h
  | c :: rest₀ =>
      by_cases hc : c = '/'
      · subst hc
        by_cases hds : rest₀.takeWhile Char.isDigit = []
        · simp [pathMatchList, hds] at h
        · have hdigits : ∀ x ∈ rest₀.takeWhile Char.isDigit, Char.isDigit x = true :=
            fun x hx => List.mem_takeWhile_imp hx
          refine ⟨rest₀.takeWhile Char.isDigit, ?_⟩
          match hdrop : rest₀.dropWhile Char.isDigit with
          | [] => simp [pathMatchList, hds, hdrop] at h
          | c2 :: more =>
              by_cases hc2 : c2 = '/'
              · subst hc2
                refine ⟨more, hds, hdigits, ?_⟩
                have hsplit := List.takeWhile_append_dropWhile Char.isDigit rest₀
                rw [hdrop] at hsplit
                conv_lhs => rw [← hsplit]
              · simp [pathMatchList, hds, hdrop, hc2] at h
      · simp [pathMatchList, hc] at h

/-- Claim C1: an inbound WebSocket connection whose request path does not
have the form slash, one or more digits, slash, remainder is closed with
code 1002 and no internal WebSocket target is constructed; conversely a
path of that form is never rejected this way, so the rejection happens
exactly on the malformed paths. -/
theorem invalid_path_rejected (path : String) :
    ((wsConnectionInit path).closeCode = some 1002 ∧
      (wsConnectionInit path).internalTarget = none)
    ↔ ¬ ∃ ds rest, ds ≠ [] ∧ (∀ c ∈ ds, Char.isDigit c = true) ∧
        path.data = '/' :: (ds ++ '/' :: rest) := by
  cases h : pathMatchList path.data with
  | none =>
      constructor
      · intro _ hform
        obtain ⟨ds, rest, hne, hdig, heq⟩ := hform
        rw [heq, pathMatchList_of_form ds rest hne hdig] at h
        exact Option.noConfusion h
      · intro _
        simp [wsConnectionInit, h]
  | some pr =>
      constructor
      · intro hrej
        simp [wsConnectionInit, h] at hrej
      · intro hform
        exact absurd (pathMatchList_some path.data pr h) hform

/-! Character class facts used by the endpoint round trip. -/

theorem pathVerbatim_not_query (c : Char) (h : pathVerbatimChar c = true) :
    (!(c = '?' || c = '#')) = true := by
  by_cases h1 : c = '?'
  · subst h1; exact absurd h (by decide)
  · by_cases h2 : c = '#'
    · subst h2; exact absurd h (by decide)
    · simp [h1, h2]

theorem pathVerbatim_regexDot (c : Char) (h : pathVerbatimChar c = true) :
    regexDotMatch c = true := by
  rw [pathVerbatimChar] at h
  simp only [Bool.and_eq_true, decide_eq_true_eq] at h
  obtain ⟨⟨hAle, hBle⟩, _⟩ := h
  rw [regexDotMatch]
  simp only [Bool.not_eq_true', Bool.or_eq_false_iff, decide_eq_false_iff_not]
  refine ⟨⟨⟨?_, ?_⟩, ?_⟩, ?_⟩
  · intro hc; subst hc; exact absurd hAle (by decide)
  · intro hc; subst hc; exact absurd hAle (by decide)
  · intro hc; omega
  · intro hc; omega

/-- Claim C2, counterexample: for the digit port string 80 the URL
serialization elides the port (80 is the default port of the ws scheme),
so the rewritten endpoint is wss://domain//x instead of the claimed
wss://domain/80/x, and the rewritten path is then even rejected by the
multiplexer instead of routing back to ws://127.0.0.1:80/x. -/
theorem remap_default_port_cx :
    remapWebSocketEndpoint "proxy.example.com" ("ws://127.0.0.1:" ++ "80" ++ "/x")
      = some "wss://proxy.example.com//x"
    ∧ remapWebSocketEndpoint "proxy.example.com" ("ws://127.0.0.1:" ++ "80" ++ "/x")
      ≠ some ("wss://" ++ "proxy.example.com" ++ "/" ++ "80" ++ "/x")
    ∧ wsConnectionInit "//x" = ⟨some 1002, none⟩ := by decide

/-- Claim C2 (amended): endpoint rewriting and path parsing are inverse
for every digit port string P in canonical decimal form whose value is at
most 65535 and different from 80 (the ws default port, which WHATWG URL
serialization elides, as the counterexample shows), and every path R
beginning with a slash all of whose characters URL parsing passes through
verbatim (no query or fragment delimiter, percent sign, backslash, dot,
space, control or non-ASCII character): remapWebSocketEndpoint maps
ws://127.0.0.1:P R to wss://domain/P R, and the multiplexer maps the
request path /P R to the internal target ws://127.0.0.1:P R. -/
theorem remap_route_inverse (domain P R : String) (v : Nat)
    (hPne : P.data ≠ [])
    (hPdig : ∀ c ∈ P.data, Char.isDigit c = true)
    (hv : digitsVal P.data = v)
    (hrange : v ≤ 65535)
    (hdef : v ≠ 80)
    (hcanon : toString v = P)
    (hRhead : R.data.head? = some '/')
    (hRsafe : ∀ c ∈ R.data, pathVerbatimChar c = true) :
    remapWebSocketEndpoint domain ("ws://127.0.0.1:" ++ P ++ R)
        = some ("wss://" ++ domain ++ "/" ++ P ++ R)
    ∧ wsConnectionInit ("/" ++ P ++ R)
        = ⟨none, some ("ws://127.0.0.1:" ++ P ++ R)⟩ := by
  obtain ⟨R', hR⟩ : ∃ R', R.data = '/' :: R' := by
    cases hcs : R.data with
    | nil => rw [hcs] at hRhead; exact absurd hRhead (by simp)
    | cons c R' =>
        rw [hcs] at hRhead
        simp only [List.head?_cons, Option.some.injEq] at hRhead
        exact ⟨R', by rw [hRhead]⟩
  have happ := takeWhile_app Char.isDigit P.data '/' R' hPdig (by decide)
  have hmemR : ∀ x ∈ R', pathVerbatimChar x = true := by
    intro x hx
    exact hRsafe x (by rw [hR]; exact List.mem_cons_of_mem _ hx)
  have hnl : ¬ 65535 < v := by omega
  have htw : R'.takeWhile (fun ch => !decide (ch = '?') && !decide (ch = '#')) = R' := by
    apply takeWhile_of_all
    intro x hx
    have hq := pathVerbatim_not_query x (hmemR x hx)
    simpa only [Bool.not_or] using hq
  constructor
  · have hdata : ("ws://127.0.0.1:" ++ P ++ R).data
        = "ws://127.0.0.1:".data ++ (P.data ++ R.data) := by
      simp [List.append_assoc]
    have hscrut : parseLoopbackWsUrl ("ws://127.0.0.1:" ++ P ++ R)
        = some (v, String.mk ('/' :: R')) := by
      rw [parseLoopbackWsUrl]
      simp [hdata, List.take_left, List.drop_left, hR, happ.1, happ.2, hPne, hv, hnl, htw]
    rw [remapWebSocketEndpoint, hscrut]
    simp only [if_neg hdef]
    rw [hcanon, ← hR]
  · have hpd : ("/" ++ P ++ R).data = '/' :: (P.data ++ '/' :: R') := by
      simp [hR]
    rw [wsConnectionInit, hpd, pathMatchList_of_form P.data R' hPne hPdig]
    rw [takeWhile_of_all _ R' (fun x hx => pathVerbatim_regexDot x (hmemR x hx))]
    rw [← hR]

/-- Witness for remap_route_inverse at a typical DevTools endpoint. -/
theorem remap_route_inverse_witness :
    ("43507".data ≠ [] ∧ (∀ c ∈ "43507".data, Char.isDigit c = true) ∧
      digitsVal "43507".data = 43507 ∧ (43507 : Nat) ≤ 65535 ∧ (43507 : Nat) ≠ 80 ∧
      toString 43507 = "43507" ∧ "/devtools/browser/abc".data.head? = some '/' ∧
      (∀ c ∈ "/devtools/browser/abc".data, pathVerbatimChar c = true))
    ∧ (remapWebSocketEndpoint "proxy.example.com"
          ("ws://127.0.0.1:" ++ "43507" ++ "/devtools/browser/abc")
        = some ("wss://" ++ "proxy.example.com" ++ "/" ++ "43507" ++ "/devtools/browser/abc")
      ∧ wsConnectionInit ("/" ++ "43507" ++ "/devtools/browser/abc")
        = ⟨none, some ("ws://127.0.0.1:" ++ "43507" ++ "/devtools/browser/abc")⟩) :=
  ⟨by decide,
    remap_route_inverse "proxy.example.com" "43507" "/devtools/browser/abc" 43507
      (by decide) (by decide) (by decide) (by decide) (by decide) (by decide)
      (by decide) (by decide)⟩

/-! Relay of frames that arrive before the internal socket opens. -/

theorem runProxy_preopen_queue :
    ∀ (frames : List (Nat × Bool)) (s : ProxySession),
      s.chromeState = WsReadyState.connecting →
      runProxy s (frames.map fun fb => ProxyEv.clientMessage fb.1 fb.2)
        = { s with pendingToChrome := s.pendingToChrome ++ frames } := by
  intro frames
  induction frames with
  | nil => intro s _; simp [runProxy]
  | cons f t ih =>
      intro s h
      have hne : s.chromeState ≠ WsReadyState.opened := by simp [h]
      have hstep : runProxy s ((f :: t).map fun fb => ProxyEv.clientMessage fb.1 fb.2)
          = runProxy { s with pendingToChrome := s.pendingToChrome ++ [(f.1, f.2)] }
              (t.map fun fb => ProxyEv.clientMessage fb.1 fb.2) := by
        simp only [List.map_cons, runProxy, List.foldl_cons, proxyStep, if_neg hne]
      rw [hstep, ih { s with pendingToChrome := s.pendingToChrome ++ [(f.1, f.2)] } h]
      simp

/-- Claim C3: every finite sequence of frames received from the client
while the internal socket is still connecting is written to the internal
socket when it reports open, exactly once and in arrival order: after the
open event the frames sent to the internal socket are exactly the queued
sequence and the queue is empty. -/
theorem pre_open_frames_fifo (frames : List (Nat × Bool)) :
    (runProxy initProxySession
      ((frames.map fun fb => ProxyEv.clientMessage fb.1 fb.2) ++ [ProxyEv.chromeOpen])).sentToChrome
        = frames
    ∧ (runProxy initProxySession
      ((frames.map fun fb => ProxyEv.clientMessage fb.1 fb.2) ++ [ProxyEv.chromeOpen])).pendingToChrome
        = [] := by
  have hrun := runProxy_preopen_queue frames initProxySession rfl
  rw [runProxy, List.foldl_append]
  rw [show List.foldl proxyStep initProxySession (frames.map fun fb => ProxyEv.clientMessage fb.1 fb.2)
      = runProxy initProxySession (frames.map fun fb => ProxyEv.clientMessage fb.1 fb.2) from rfl]
  rw [hrun]
  simp [proxyStep, initProxySession]

/-! Teardown discipline of a ProxySession. -/

theorem cleanup_inv (s : ProxySession) (h : ProxyInv s) : ProxyInv (cleanup s) := by
  obtain ⟨h1, h2, h3, h4⟩ := h
  have hc0 : s.clientState = WsReadyState.opened → s.clientCloseCalls = 0 := by
    intro hs
    by_contra hne
    have hone : s.clientCloseCalls = 1 := by omega
    rcases h3 hone with hh | hh <;> rw [hs] at hh <;> exact WsReadyState.noConfusion hh
  have hk0 : s.chromeState = WsReadyState.opened → s.chromeCloseCalls = 0 := by
    intro hs
    by_contra hne
    have hone : s.chromeCloseCalls = 1 := by omega
    rcases h4 hone with hh | hh <;> rw [hs] at hh <;> exact WsReadyState.noConfusion hh
  by_cases hc : s.clientState = WsReadyState.opened <;>
    by_cases hk : s.chromeState = WsReadyState.opened
  · exact ⟨by simp [cleanup, closeSocket, hc, hk, hc0 hc],
      by simp [cleanup, closeSocket, hc, hk, hk0 hk],
      by intro _; simp [cleanup, closeSocket, hc, hk],
      by intro _; simp [cleanup, closeSocket, hc, hk]⟩
  · exact ⟨by simp [cleanup, closeSocket, hc, hk, hc0 hc],
      by simpa [cleanup, closeSocket, hc, hk] using h2,
      by intro _; simp [cleanup, closeSocket, hc, hk],
      by simpa [cleanup, closeSocket, hc, hk] using h4⟩
  · exact ⟨by simpa [cleanup, closeSocket, hc, hk] using h1,
      by simp [cleanup, closeSocket, hc, hk, hk0 hk],
      by simpa [cleanup, closeSocket, hc, hk] using h3,
      by intro _; simp [cleanup, closeSocket, hc, hk]⟩
  · exact ⟨by simpa [cleanup, closeSocket, hc, hk] using h1,
      by simpa [cleanup, closeSocket, hc, hk] using h2,
      by simpa [cleanup, closeSocket, hc, hk] using h3,
      by simpa [cleanup, closeSocket, hc, hk] using h4⟩

theorem proxyStep_inv (s : ProxySession) (e : ProxyEv) (h : ProxyInv s) :
    ProxyInv (proxyStep s e) := by
  obtain ⟨h1, h2, h3, h4⟩ := h
  cases e with
  | clientMessage d b =>
      by_cases hk : s.chromeState = WsReadyState.opened <;>
        exact ⟨by simpa [proxyStep, hk] using h1, by simpa [proxyStep, hk] using h2,
          by simpa [proxyStep, hk] using h3, by simpa [proxyStep, hk] using h4⟩
  | chromeMessage d b =>
      by_cases hc : s.clientState = WsReadyState.opened <;>
        exact ⟨by simpa [proxyStep, hc] using h1, by simpa [proxyStep, hc] using h2,
          by simpa [proxyStep, hc] using h3, by simpa [proxyStep, hc] using h4⟩
  | chromeOpen =>
      by_cases hk : s.chromeState = WsReadyState.connecting
      · have hz : s.chromeCloseCalls = 0 := by
          by_contra hne
          have hone : s.chromeCloseCalls = 1 := by omega
          rcases h4 hone with hh | hh <;> rw [hk] at hh <;> exact WsReadyState.noConfusion hh
        exact ⟨by simpa [proxyStep, hk] using h1, by simp [proxyStep, hk, hz],
          by simpa [proxyStep, hk] using h3, by simp [proxyStep, hk, hz]⟩
      · exact ⟨by simpa [proxyStep, hk] using h1, by simpa [proxyStep, hk] using h2,
          by simpa [proxyStep, hk] using h3, by simpa [proxyStep, hk] using h4⟩
  | clientClose =>
      exact cleanup_inv _ ⟨h1, h2, fun _ => Or.inr rfl, h4⟩
  | chromeClose =>
      exact cleanup_inv _ ⟨h1, h2, h3, fun _ => Or.inr rfl⟩
  | clientError =>
      exact cleanup_inv s ⟨h1, h2, h3, h4⟩
  | chromeError =>
      exact cleanup_inv s ⟨h1, h2, h3, h4⟩

theorem runProxy_inv (evs : List ProxyEv) : ProxyInv (runProxy initProxySession evs) := by
  have hbase : ProxyInv initProxySession :=
    ⟨Nat.zero_le 1, Nat.zero_le 1,
      fun hh => absurd hh (by decide), fun hh => absurd hh (by decide)⟩
  suffices hgen : ∀ s, ProxyInv s → ProxyInv (runProxy s evs) from hgen _ hbase
  induction evs with
  | nil => intro s hs; exact hs
  | cons e t ih => intro s hs; exact ih _ (proxyStep_inv s e hs)

/-- Claim C4, counterexample: when the client leg closes while the
internal leg is still connecting, the cleanup closure skips the internal
socket (its readyState is not OPEN), so once the internal socket opens it
stays open and close is never invoked on it — the close of one leg did
not cause the other leg to be closed. -/
theorem cascade_connecting_leg_cx :
    (runProxy initProxySession [ProxyEv.clientClose, ProxyEv.chromeOpen]).chromeState
        = WsReadyState.opened
    ∧ (runProxy initProxySession [ProxyEv.clientClose, ProxyEv.chromeOpen]).chromeCloseCalls
        = 0 := by decide

/-- Claim C4 (amended): a close or error event on either leg closes the
other leg when that leg is currently open, and over any sequence of
events each socket has close invoked on it at most once; however a leg
that is still connecting (or already closing or closed) when the peer
closes is not closed, as the counterexample shows. -/
theorem cascade_close_amended (evs : List ProxyEv) (s t : ProxySession)
    (hk : s.chromeState = WsReadyState.opened)
    (hc : t.clientState = WsReadyState.opened) :
    ((runProxy initProxySession evs).clientCloseCalls ≤ 1 ∧
      (runProxy initProxySession evs).chromeCloseCalls ≤ 1)
    ∧ ((proxyStep s ProxyEv.clientClose).chromeState = WsReadyState.closing ∧
        (proxyStep s ProxyEv.clientClose).chromeCloseCalls = s.chromeCloseCalls + 1)
    ∧ ((proxyStep s ProxyEv.clientError).chromeState = WsReadyState.closing ∧
        (proxyStep s ProxyEv.clientError).chromeCloseCalls = s.chromeCloseCalls + 1)
    ∧ ((proxyStep t ProxyEv.chromeClose).clientState = WsReadyState.closing ∧
        (proxyStep t ProxyEv.chromeClose).clientCloseCalls = t.clientCloseCalls + 1)
    ∧ ((proxyStep t ProxyEv.chromeError).clientState = WsReadyState.closing ∧
        (proxyStep t ProxyEv.chromeError).clientCloseCalls = t.clientCloseCalls + 1) := by
  have hinv := runProxy_inv evs
  exact ⟨⟨hinv.1, hinv.2.1⟩,
    ⟨by simp [proxyStep, cleanup, closeSocket, hk], by simp [proxyStep, cleanup, closeSocket, hk]⟩,
    ⟨by simp [proxyStep, cleanup, closeSocket, hk], by simp [proxyStep, cleanup, closeSocket, hk]⟩,
    ⟨by simp [proxyStep, cleanup, closeSocket, hc], by simp [proxyStep, cleanup, closeSocket, hc]⟩,
    ⟨by simp [proxyStep, cleanup, closeSocket, hc], by simp [proxyStep, cleanup, closeSocket, hc]⟩⟩

/-- Witness for cascade_close_amended: a session with both legs open. -/
theorem cascade_close_amended_witness :
    ((⟨WsReadyState.opened, WsReadyState.opened, [], [], [], 0, 0⟩ : ProxySession).chromeState
        = WsReadyState.opened)
    ∧ (proxyStep (⟨WsReadyState.opened, WsReadyState.opened, [], [], [], 0, 0⟩ : ProxySession)
        ProxyEv.clientClose).chromeState = WsReadyState.closing :=
  ⟨rfl, (cascade_close_amended []
      ⟨WsReadyState.opened, WsReadyState.opened, [], [], [], 0, 0⟩
      ⟨WsReadyState.opened, WsReadyState.opened, [], [], [], 0, 0⟩ rfl rfl).2.1.1⟩

/-- Claim C5, code evaluation at the failing interleaving: two
launchBrowser calls are entered while no browser is running; the second
performs its synchronous null check while the first is suspended in
await puppeteer.launch, before the module-level variable is assigned, so
both calls launch and two browser processes are started (the claim says
exactly one launch). The second assignment then overwrites the first
handle, leaking the first process. -/
theorem concurrent_launch_race :
    (runSched ⟨none, 0, [AcquirePC.entry, AcquirePC.entry]⟩ [0, 1, 0, 1]).launches = 2
    ∧ (runSched ⟨none, 0, [AcquirePC.entry, AcquirePC.entry]⟩ [0, 1, 0, 1]).tasks
        = [AcquirePC.done, AcquirePC.done] := by decide

/-! The reaper sweep. Each iteration draws a fresh CDP session id as its
lookup key, so a sweep whose not-yet-drawn ids are all unbound in the
registry finds no timestamp and closes nothing. The program guarantees
that unbound-ness: entries are stored only under ids of sessions
attached earlier (the targetcreated handler), and ids are never
reused. -/

theorem sweepStep_fresh (now pagesLen : Nat) (cl : List String) (s : SupervisorState)
    (p : Page)
    (hnone : regLookup s.tabLastActivity ("session-" ++ toString s.nextSessionId) = none) :
    sweepStep now pagesLen (cl, s) p
      = (cl, { s with nextSessionId := s.nextSessionId + 1 }) := by
  unfold sweepStep newCDPSessionId
  by_cases hex : p.url = "about:blank" ∧ pagesLen ≤ 1
  · rw [if_pos hex]
  · rw [if_neg hex]
    simp [hnone]

theorem sweep_fold_fresh :
    ∀ (pages : List Page) (now pagesLen : Nat) (cl : List String) (s : SupervisorState),
      (∀ j, s.nextSessionId ≤ j → j < s.nextSessionId + pages.length →
          regLookup s.tabLastActivity ("session-" ++ toString j) = none) →
      (pages.foldl (sweepStep now pagesLen) (cl, s)).1 = cl
      ∧ (pages.foldl (sweepStep now pagesLen) (cl, s)).2.tabLastActivity
          = s.tabLastActivity := by
  intro pages
  induction pages with
  | nil => intro now pagesLen cl s _; exact ⟨rfl, rfl⟩
  | cons p t ih =>
      intro now pagesLen cl s h
      simp only [List.length_cons] at h
      have hstep := sweepStep_fresh now pagesLen cl s p
        (h s.nextSessionId (Nat.le_refl _) (by omega))
      rw [List.foldl_cons, hstep]
      have hrec := ih now pagesLen cl { s with nextSessionId := s.nextSessionId + 1 }
        (fun j hj1 hj2 =>
          have hj1a : s.nextSessionId + 1 ≤ j := hj1
          have hj2a : j < s.nextSessionId + 1 + t.length := hj2
          h j (by omega) (by omega))
      exact ⟨hrec.1, hrec.2⟩

/-- Claim C6, code evaluation at the failing input: the targetcreated
handler records the timestamp under the id of the CDP session it
attaches (session-0); a later sweep attaches a fresh CDP session to the
same page and looks its id (session-1) up instead, so even though the
recorded timestamp is far past the threshold and the page is not exempt,
the lookup misses, no page is closed and the stale entry stays — the
claim says the page is closed and its entry removed. -/
theorem reaper_starved_stale_entry :
    (onTargetCreated TargetType.page 1 ⟨some 1, [], 0⟩).tabLastActivity
        = [("session-0", 1)]
    ∧ INACTIVE_TAB_TIMEOUT_MS < 10000000 - 1
    ∧ ¬((⟨"https://one.example"⟩ : Page).url = "about:blank")
    ∧ (cleanupInactiveTabs 10000000 [(⟨"https://one.example"⟩ : Page)]
        (onTargetCreated TargetType.page 1 ⟨some 1, [], 0⟩)).1 = []
    ∧ (cleanupInactiveTabs 10000000 [(⟨"https://one.example"⟩ : Page)]
        (onTargetCreated TargetType.page 1 ⟨some 1, [], 0⟩)).2.tabLastActivity
        = [("session-0", 1)] := by decide

/-- Claim C7: the reaper never closes the sole remaining blank tab and
never leaves the browser with zero tabs; in fact it closes no page at
all, because each per-sweep lookup key is a freshly attached CDP session
id that is unbound in the registry. The hypothesis states that
unbound-ness for the ids the sweep will draw; the program maintains it
since entries are stored only under previously attached session ids. -/
theorem reaper_never_closes (now : Nat) (pages : List Page) (s : SupervisorState)
    (h : ∀ j, s.nextSessionId ≤ j → j < s.nextSessionId + pages.length →
        regLookup s.tabLastActivity ("session-" ++ toString j) = none) :
    (cleanupInactiveTabs now pages s).1 = []
    ∧ (cleanupInactiveTabs now pages s).2.tabLastActivity = s.tabLastActivity := by
  unfold cleanupInactiveTabs
  cases hb : s.browser with
  | none => exact ⟨rfl, rfl⟩
  | some b =>
      exact ⟨(sweep_fold_fresh pages now pages.length [] s h).1,
        (sweep_fold_fresh pages now pages.length [] s h).2⟩

/-- Witness for reaper_never_closes: a sweep over the sole blank page
from a state holding one creation-time entry closes nothing. -/
theorem reaper_never_closes_witness :
    (cleanupInactiveTabs 10000000 [(⟨"about:blank"⟩ : Page)]
        ⟨some 1, [("session-0", 1)], 1⟩).1 = []
    ∧ (cleanupInactiveTabs 10000000 [(⟨"about:blank"⟩ : Page)]
        ⟨some 1, [("session-0", 1)], 1⟩).2.tabLastActivity = [("session-0", 1)] :=
  reaper_never_closes 10000000 [⟨"about:blank"⟩] ⟨some 1, [("session-0", 1)], 1⟩
    (fun j hj1 hj2 => by
      have hj1a : 1 ≤ j := hj1
      have hj2a : j < 2 := hj2
      have hj : j = 1 := by omega
      subst hj
      rfl)
/-- Claim C8, code evaluation at the failing input: a targetcreated event
of kind page followed by a targetdestroyed event of kind page for the
same tab. The create handler stores the timestamp under the id of the CDP
session it attaches; the destroy handler attaches another CDP session,
obtaining a fresh id, and deletes that fresh id, so the entry stored at
creation survives — the registry is not empty after create followed by
destroy, contrary to the claim. (In the real runtime attaching to an
already destroyed target can also throw, in which case the delete is
skipped entirely; either way the creation entry remains.) -/
theorem target_destroy_stale_entry :
    (onTargetDestroyed TargetType.page
        (onTargetCreated TargetType.page 12345 ⟨some 1, [], 0⟩)).tabLastActivity
      = [("session-0", 12345)]
    ∧ (onTargetDestroyed TargetType.page
        (onTargetCreated TargetType.page 12345 ⟨some 1, [], 0⟩)).tabLastActivity ≠ [] := by
  decide

/-- Claim C9: after the disconnected handler runs, the browser handle is
null and the tab-activity registry holds zero entries, from any prior
supervisor state. -/
theorem disconnect_clears_registry (s : SupervisorState) :
    (onDisconnected s).browser = none
    ∧ (onDisconnected s).tabLastActivity = []
    ∧ (onDisconnected s).tabLastActivity.length = 0 :=
  ⟨rfl, rfl, rfl⟩

/-- A bearer header value is never the empty string. -/
theorem bearer_ne_empty (s : String) : "Bearer " ++ s ≠ "" := by
  intro h
  have hd := congrArg String.data h
  rw [String.data_append] at hd
  simp at hd

/-- Claim C10: a request is authorized exactly when its authorization
header string-equals the template literal of Bearer and AUTH_TOKEN; a
request without the header receives 401; with no configured token the
literal header Bearer undefined is accepted. -/
theorem auth_bearer_exact (token header : Option String) :
    (authOk token header = true ↔ header = some ("Bearer " ++ jsTemplateToken token))
    ∧ authResponse token none = some 401
    ∧ authOk none (some "Bearer undefined") = true := by
  refine ⟨?_, rfl, by decide⟩
  cases header with
  | none => simp [authOk]
  | some h =>
      by_cases he : h = ""
      · subst he
        constructor
        · intro hh
          exact absurd hh (by simp [authOk])
        · intro hh
          exact absurd (Option.some.inj hh).symm (bearer_ne_empty (jsTemplateToken token))
      · by_cases heq : h = "Bearer " ++ jsTemplateToken token
        · simp [authOk, he, heq, bearer_ne_empty (jsTemplateToken token)]
        · simp [authOk, he, heq]

end PuppeteerServer
